import Mathlib

/-!
Verification of the dynamical-system core of `Q1_dynamic_sys.py`
(ICM 2026 Problem D model: payroll → win rate → revenue / luxury tax →
profit and brand-value dynamics → discounted objective and feasibility
constraint, searched by a global optimizer).

The Python source is shallowly embedded:
* pure arithmetic (the luxury-tax schedule) is embedded generically over a
  `LinearOrderedField`, so it is executable at `ℚ` and usable at `ℝ`;
* the continuous model (logarithms, exponential discounting) is embedded
  over `ℝ`;
* the three Euler loops of the script (inside `objective_function`,
  inside `constraint_min_profit`, and the standalone diagnostic
  simulation loop) are each embedded separately and related by theorems;
* the NumPy floating-point behaviour of `np.log` on non-positive input
  (NaN / −∞ propagation, no exception) is embedded with an explicit
  value type `NpVal`.
-/

namespace Q1

/-! ## Definitions

### Luxury-tax schedule (source lines 42-54, 78-101)

`TAX_BRACKETS` is the list of `(low, high, rate)` rows of the Python
bracket table; the unbounded final `float('inf')` upper bound is embedded
as `none`. -/

section TaxDefs

variable {α : Type*} [LinearOrderedField α]

def LUXURY_TAX_LINE : α := 187895000

def TAX_BRACKETS : List (α × Option α × α) :=
  [ (0,        some 4999999,  2.5)
  , (5000000,  some 9999999,  2.75)
  , (10000000, some 14999999, 3.5)
  , (15000000, some 19999999, 4.25)
  , (20000000, none,          4.75) ]

/-- The bracket loop of `calculate_luxury_tax`: iterates the rows in
order; at each row, if the (mutated) excess is ≤ 0 the loop breaks;
otherwise `taxable = min(excess, high - low + 1) if low <= excess else 0`,
and if `taxable > 0` the row contributes `taxable * actual_rate` and the
excess is decremented by the full row width.  A `none` upper bound is
`float('inf')`: the whole remaining excess is taxable there and the
decrement by `inf` makes every later iteration break (so the recursion
simply stops contributing). -/
def taxLoop (is_repeater : Bool) : List (α × Option α × α) → α → α
  | [], _ => 0
  | (low, high, rate) :: rest, excess =>
    if excess ≤ 0 then 0
    else
      match high with
      | none =>
        if low ≤ excess then excess * (if is_repeater then rate else rate - 1)
        else taxLoop is_repeater rest excess
      | some hi =>
        if 0 < (if low ≤ excess then min excess (hi - low + 1) else 0) then
          (if low ≤ excess then min excess (hi - low + 1) else 0) *
              (if is_repeater then rate else rate - 1) +
            taxLoop is_repeater rest (excess - (hi - low + 1))
        else taxLoop is_repeater rest excess

/-- Source lines 78-101. -/
def calculate_luxury_tax (salary : α) (is_repeater : Bool := true) : α :=
  if salary ≤ LUXURY_TAX_LINE then 0
  else taxLoop is_repeater TAX_BRACKETS (salary - LUXURY_TAX_LINE)

end TaxDefs

/-! ### Calibration from the historical data (source lines 56-66, 107-168)

The script estimates `R_FIXED`, `ALPHA`, `BETA` by `numpy.linalg.lstsq`
on the design matrix `[1, win_rate, brand_value/1e9]` against
`revenue/1e6`, and `C_OPS` as the mean of
`revenue - salary - luxury_tax - ebitda` over the five historical
seasons.  The design matrix has full column rank (the normal matrix's
determinant `detM` is nonzero), so the least-squares solution is unique
and equals the Cramer-rule solution of the normal equations, which is
what is embedded here, exactly over `ℚ`. -/

def win_rates : List ℚ := [0.542, 0.646, 0.537, 0.561, 0.585]

def revenues : List ℚ := [258000000, 765000000, 765000000, 800000000, 880000000]

def brand_values : List ℚ := [950000000, 1005000000, 1180000000, 1360000000, 1521000000]

def salaries : List ℚ := [147700000, 175850000, 191700000, 209300000, 176890000]

def luxury_taxes : List ℚ := [68900000, 170300000, 163700000, 176900000, 15410000]

def ebitdas : List ℚ := [-44000000, 206000000, 79000000, 142000000, 409000000]

def dotQ (a b : List ℚ) : ℚ := (List.zipWith (· * ·) a b).sum

/-- Brand values in billions: the third column of the design matrix. -/
def bB : List ℚ := brand_values.map (· / 1000000000)

/-- Revenues in millions: the regression target. -/
def yM : List ℚ := revenues.map (· / 1000000)

def det3 (a b c d e f g h i : ℚ) : ℚ :=
  a * (e * i - f * h) - b * (d * i - f * g) + c * (d * h - e * g)

def detM : ℚ :=
  det3 5 win_rates.sum bB.sum
    win_rates.sum (dotQ win_rates win_rates) (dotQ win_rates bB)
    bB.sum (dotQ win_rates bB) (dotQ bB bB)

/-- Fixed-revenue intercept (dollars), `coeffs[0] * 1e6`. -/
def R_FIXED : ℚ :=
  det3 yM.sum win_rates.sum bB.sum
      (dotQ win_rates yM) (dotQ win_rates win_rates) (dotQ win_rates bB)
      (dotQ bB yM) (dotQ win_rates bB) (dotQ bB bB) / detM * 1000000

/-- Win-rate revenue coefficient (dollars per unit win rate), `coeffs[1] * 1e6`. -/
def ALPHA : ℚ :=
  det3 5 yM.sum bB.sum
      win_rates.sum (dotQ win_rates yM) (dotQ win_rates bB)
      bB.sum (dotQ bB yM) (dotQ bB bB) / detM * 1000000

/-- Brand revenue coefficient (dollars per billion of brand), `coeffs[2] * 1e6`. -/
def BETA : ℚ :=
  det3 5 win_rates.sum yM.sum
      win_rates.sum (dotQ win_rates win_rates) (dotQ win_rates yM)
      bB.sum (dotQ win_rates bB) (dotQ bB yM) / detM * 1000000

/-- Mean operating cost (dollars), source lines 160-163. -/
def C_OPS : ℚ :=
  ((List.zipWith (· - ·)
      (List.zipWith (· - ·) (List.zipWith (· - ·) revenues salaries) luxury_taxes)
      ebitdas).sum) / 5

/-! ### Performance conversion functions and state dynamics
(source lines 139-141, 168-169, 176-219) -/

def ETA : ℝ := 0.5e9

def ZETA : ℝ := 0.1e9

def DELTA : ℝ := 0.15

def STAR_EFFECT : ℝ := 1.0

def PLAYOFF_BONUS : ℝ := 34.7e6

def PLAYOFF_THRESHOLD : ℝ := 0.5

/-- `np.log(salaries / 1e6)`, the regressor of the payroll→win-rate fit
(source line 150). -/
noncomputable def log_salaries : List ℝ :=
  salaries.map (fun x => Real.log ((x : ℝ) / 1000000))

def dotR (a b : List ℝ) : ℝ := (List.zipWith (· * ·) a b).sum

def win_ratesR : List ℝ := win_rates.map (fun x => (x : ℝ))

/-- Slope of `np.polyfit(log_salaries, win_rates, 1)` — the degree-one
least-squares fit, embedded by its closed form (the regressors are not
all equal, so the fit is unique). -/
noncomputable def SALARY_WIN_SLOPE : ℝ :=
  (5 * dotR log_salaries win_ratesR - log_salaries.sum * win_ratesR.sum) /
    (5 * dotR log_salaries log_salaries - log_salaries.sum ^ 2)

noncomputable def SALARY_WIN_INTERCEPT : ℝ :=
  (win_ratesR.sum - SALARY_WIN_SLOPE * log_salaries.sum) / 5

/-- Source lines 178-183: `np.clip(slope * ln(salary/1e6) + intercept, 0.3, 0.8)`. -/
noncomputable def win_rate_function (salary : ℝ) : ℝ :=
  min (max (SALARY_WIN_SLOPE * Real.log (salary / 1000000) + SALARY_WIN_INTERCEPT) 0.3) 0.8

/-- Source lines 185-190. -/
noncomputable def revenue_function (win_rate brand_value : ℝ) : ℝ :=
  (R_FIXED : ℝ) + (ALPHA : ℝ) * win_rate + (BETA : ℝ) * (brand_value / 1000000000) +
    if PLAYOFF_THRESHOLD ≤ win_rate then PLAYOFF_BONUS else 0

/-- Source lines 192-196. -/
noncomputable def expense_function (salary : ℝ) : ℝ :=
  salary + calculate_luxury_tax salary + (C_OPS : ℝ)

/-- Source lines 198-219: the two-state vector field
`(dP/dt, dB/dt)`; the time argument is unused, as in the source. -/
noncomputable def dynamics (state : ℝ × ℝ) (t : ℝ) (salary : ℝ) : ℝ × ℝ :=
  (revenue_function (win_rate_function salary) state.2 - expense_function salary,
   ETA * win_rate_function salary + ZETA * STAR_EFFECT - DELTA * state.2)

/-! ### Time grid, interpolation, initial state (source lines 229-243) -/

def P0 : ℝ := 0

def B0 : ℝ := 1.246e9

def RHO : ℝ := 0.05

def W1 : ℝ := 0.6

def W2 : ℝ := 0.4

/-- `t = np.linspace(0, H, 100)` with `H = 5`: the `i`-th grid point. -/
noncomputable def tGrid (i : ℕ) : ℝ := 5 * i / 99

/-- `np.interp(x, np.linspace(0, 5, 5), traj)`: piecewise-linear
interpolation of the five payroll decisions on knots
`0, 5/4, 5/2, 15/4, 5`, clamped outside. -/
noncomputable def interp5 (traj : Fin 5 → ℝ) (x : ℝ) : ℝ :=
  if x ≤ 0 then traj 0
  else if x ≤ 5 / 4 then traj 0 + (traj 1 - traj 0) * (x - 0) / (5 / 4 - 0)
  else if x ≤ 5 / 2 then traj 1 + (traj 2 - traj 1) * (x - 5 / 4) / (5 / 2 - 5 / 4)
  else if x ≤ 15 / 4 then traj 2 + (traj 3 - traj 2) * (x - 5 / 2) / (15 / 4 - 5 / 2)
  else if x ≤ 5 then traj 3 + (traj 4 - traj 3) * (x - 15 / 4) / (5 - 15 / 4)
  else traj 4

/-! ### The three Euler loops (source lines 245-273, 275-292, 334-354)

Each loop is embedded on its own, exactly as written in its code block:
the state variable as a recursion in the step index, and the loop-carried
accumulators (`total_value`, `min_annual_profit`) via a left fold over
`range 99`. -/

/-- State variable of the Euler loop inside `objective_function`
(source lines 256-264): `state` after `i` steps. -/
noncomputable def objStates (traj : Fin 5 → ℝ) : ℕ → ℝ × ℝ
  | 0 => (P0, B0)
  | i + 1 =>
    ((objStates traj i).1 +
        (dynamics (objStates traj i) (tGrid i) (interp5 traj (tGrid i))).1 *
          (tGrid (i + 1) - tGrid i),
      (objStates traj i).2 +
        (dynamics (objStates traj i) (tGrid i) (interp5 traj (tGrid i))).2 *
          (tGrid (i + 1) - tGrid i))

/-- State variable of the Euler loop inside `constraint_min_profit`
(source lines 279-290): `state` after `i` steps. -/
noncomputable def conStates (traj : Fin 5 → ℝ) : ℕ → ℝ × ℝ
  | 0 => (P0, B0)
  | i + 1 =>
    ((conStates traj i).1 +
        (dynamics (conStates traj i) (tGrid i) (interp5 traj (tGrid i))).1 *
          (tGrid (i + 1) - tGrid i),
      (conStates traj i).2 +
        (dynamics (conStates traj i) (tGrid i) (interp5 traj (tGrid i))).2 *
          (tGrid (i + 1) - tGrid i))

/-- State variable of the standalone diagnostic simulation loop
(source lines 334-354), parametrised by the trajectory it replays:
`states[i]` of the accumulated list. -/
noncomputable def simStates (traj : Fin 5 → ℝ) : ℕ → ℝ × ℝ
  | 0 => (P0, B0)
  | i + 1 =>
    ((simStates traj i).1 +
        (dynamics (simStates traj i) (tGrid i) (interp5 traj (tGrid i))).1 *
          (tGrid (i + 1) - tGrid i),
      (simStates traj i).2 +
        (dynamics (simStates traj i) (tGrid i) (interp5 traj (tGrid i))).2 *
          (tGrid (i + 1) - tGrid i))

/-- One iteration of the loop body of `objective_function` (source
lines 258-271): carries `(state, total_value)`. -/
noncomputable def objStep (traj : Fin 5 → ℝ) (acc : (ℝ × ℝ) × ℝ) (i : ℕ) :
    (ℝ × ℝ) × ℝ :=
  let dt := tGrid (i + 1) - tGrid i
  let sal := interp5 traj (tGrid i)
  let d := dynamics acc.1 (tGrid i) sal
  let st : ℝ × ℝ := (acc.1.1 + d.1 * dt, acc.1.2 + d.2 * dt)
  (st, acc.2 + Real.exp (-RHO * tGrid (i + 1)) * (W1 * st.1 + W2 * (st.2 * 7)) * dt)

/-- Source lines 245-273: Euler-integrate, accumulate the discounted
weighted value, return the negation. -/
noncomputable def objective_function (traj : Fin 5 → ℝ) : ℝ :=
  -(((List.range 99).foldl (objStep traj) ((P0, B0), 0)).2)

/-- One iteration of the loop body of `constraint_min_profit` (source
lines 282-290): carries `(state, min_annual_profit)`; the Python
`float('inf')` initial minimum is embedded as `none` (and
`min(inf, x) = x` as the `none → some x` step). -/
noncomputable def conStep (traj : Fin 5 → ℝ) (acc : (ℝ × ℝ) × Option ℝ) (i : ℕ) :
    (ℝ × ℝ) × Option ℝ :=
  let dt := tGrid (i + 1) - tGrid i
  let sal := interp5 traj (tGrid i)
  let d := dynamics acc.1 (tGrid i) sal
  ((acc.1.1 + d.1 * dt, acc.1.2 + d.2 * dt),
    some (match acc.2 with | none => d.1 | some m => min m d.1))

/-- Source lines 275-292: the minimum per-step profit rate plus the
50-million tolerance.  The loop runs 99 ≥ 1 times, so the final
accumulator is always `some`; `getD 0` is the (unreachable) default. -/
noncomputable def constraint_min_profit (traj : Fin 5 → ℝ) : ℝ :=
  (((List.range 99).foldl (conStep traj) ((P0, B0), none)).2.getD 0) + 50000000

/-- The objective actually handed to `differential_evolution` at the
call site (source lines 305-312): the raw `objective_function` itself —
no penalty wrapper, and no constraint argument is passed. -/
noncomputable def optimizer_objective : (Fin 5 → ℝ) → ℝ := objective_function

/-- The per-step profit rate `dstate[0]` examined by the constraint loop
at step `i`. -/
noncomputable def profitRate (traj : Fin 5 → ℝ) (i : ℕ) : ℝ :=
  (dynamics (conStates traj i) (tGrid i) (interp5 traj (tGrid i))).1

/-- Running minimum of the per-step profit rates over steps `0..n`. -/
noncomputable def bestRate (traj : Fin 5 → ℝ) : ℕ → ℝ
  | 0 => profitRate traj 0
  | n + 1 => min (bestRate traj n) (profitRate traj (n + 1))

/-! ### NumPy floating-point domain behaviour of the win-rate function

`np.log` does not raise on non-positive input: it emits a runtime
warning and returns NaN (negative argument) or −∞ (zero argument), and
`np.clip` propagates NaN.  `NpVal` embeds exactly the special values
this path can produce. -/

inductive NpVal
  | nan
  | neginf
  | posinf
  | val (x : ℝ)

/-- `np.log` on a real scalar. -/
noncomputable def np_log (x : ℝ) : NpVal :=
  if x < 0 then NpVal.nan else if x = 0 then NpVal.neginf else NpVal.val (Real.log x)

/-- `a * v + b` under IEEE special-value rules (`0 * ±∞ = NaN`,
NaN propagates). -/
noncomputable def npSMulAdd (a : ℝ) (v : NpVal) (b : ℝ) : NpVal :=
  match v with
  | NpVal.nan => NpVal.nan
  | NpVal.neginf =>
      if 0 < a then NpVal.neginf else if a < 0 then NpVal.posinf else NpVal.nan
  | NpVal.posinf =>
      if 0 < a then NpVal.posinf else if a < 0 then NpVal.neginf else NpVal.nan
  | NpVal.val x => NpVal.val (a * x + b)

/-- `np.clip(v, lo, hi)`: NaN propagates, infinities saturate. -/
noncomputable def np_clip (v : NpVal) (lo hi : ℝ) : NpVal :=
  match v with
  | NpVal.nan => NpVal.nan
  | NpVal.neginf => NpVal.val lo
  | NpVal.posinf => NpVal.val hi
  | NpVal.val x => NpVal.val (min (max x lo) hi)

/-- `win_rate_function` under NumPy floating-point domain semantics:
`np.clip(SALARY_WIN_SLOPE * np.log(salary/1e6) + SALARY_WIN_INTERCEPT, 0.3, 0.8)`. -/
noncomputable def win_rate_np (salary : ℝ) : NpVal :=
  np_clip (npSMulAdd SALARY_WIN_SLOPE (np_log (salary / 1000000)) SALARY_WIN_INTERCEPT)
    0.3 0.8

/-! ## Theorems

### Closed form of the tax schedule -/

section TaxThms

variable {α : Type*} [LinearOrderedField α]

/-- Closed form of the loop on the final (unbounded) bracket alone. -/
theorem taxLoop5 (e : α) :
    taxLoop true [((20000000 : α), none, 4.75)] e =
      if e ≤ 0 then 0 else if 20000000 ≤ e then e * (19 / 4) else 0 := by
  rw [taxLoop]
  norm_num
  simp only [taxLoop]

/-- Closed form of the loop on the last two brackets. -/
theorem taxLoop4 (e : α) :
    taxLoop true
        [((15000000 : α), some 19999999, 4.25), (20000000, none, 4.75)] e =
      if e ≤ 0 then 0
      else if e < 15000000 then 0
      else if e < 25000000 then 21250000
      else 21250000 + (e - 5000000) * (19 / 4) := by
  rw [taxLoop]
  simp only [taxLoop5, min_def]
  norm_num
  split_ifs <;> push_neg at * <;> first | rfl | linarith

set_option maxHeartbeats 1600000 in
/-- Closed form of the loop on the last three brackets. -/
theorem taxLoop3 (e : α) :
    taxLoop true
        [((10000000 : α), some 14999999, 3.5), (15000000, some 19999999, 4.25),
          (20000000, none, 4.75)] e =
      if e ≤ 0 then 0
      else if e < 10000000 then 0
      else if e < 20000000 then 17500000
      else if e < 30000000 then 38750000
      else 38750000 + (e - 10000000) * (19 / 4) := by
  rw [taxLoop]
  simp only [taxLoop4, min_def]
  norm_num
  split_ifs <;> push_neg at * <;> first | rfl | linarith

set_option maxHeartbeats 1600000 in
/-- Closed form of the loop on the last four brackets. -/
theorem taxLoop2 (e : α) :
    taxLoop true
        [((5000000 : α), some 9999999, 2.75), (10000000, some 14999999, 3.5),
          (15000000, some 19999999, 4.25), (20000000, none, 4.75)] e =
      if e ≤ 0 then 0
      else if e < 5000000 then 0
      else if e < 15000000 then 13750000
      else if e < 25000000 then 31250000
      else if e < 35000000 then 52500000
      else 52500000 + (e - 15000000) * (19 / 4) := by
  rw [taxLoop]
  simp only [taxLoop3, min_def]
  norm_num
  split_ifs <;> push_neg at * <;> first | rfl | linarith

set_option maxHeartbeats 1600000 in
/-- Closed form of the bracket loop on the full table, as a function of
the excess over the threshold. -/
theorem taxLoop1 (e : α) :
    taxLoop true (TAX_BRACKETS (α := α)) e =
      if e ≤ 0 then 0
      else if e ≤ 5000000 then (5 / 2) * e
      else if e < 10000000 then 12500000
      else if e < 20000000 then 26250000
      else if e < 30000000 then 43750000
      else if e < 40000000 then 65000000
      else 65000000 + (e - 20000000) * (19 / 4) := by
  rw [TAX_BRACKETS, taxLoop]
  simp only [taxLoop2, min_def]
  norm_num
  split_ifs <;> push_neg at * <;> first | rfl | linarith

set_option maxHeartbeats 1600000 in
/-- Closed form of the implemented (repeat-offender) tax across the
whole payroll axis.  Note the plateaus: because the loop's guard
`low <= excess` compares a bracket's lower bound against the *already
decremented* excess, the third bracket only activates once the original
excess reaches 20M (not 10M), the fourth at 30M, the fifth at 40M. -/
theorem tax_closed (p : α) :
    calculate_luxury_tax p =
      if p ≤ 187895000 then 0
      else if p ≤ 192895000 then (5 / 2) * (p - 187895000)
      else if p < 197895000 then 12500000
      else if p < 207895000 then 26250000
      else if p < 217895000 then 43750000
      else if p < 227895000 then 65000000
      else 65000000 + (19 / 4) * (p - 207895000) := by
  rw [calculate_luxury_tax, LUXURY_TAX_LINE, taxLoop1]
  split_ifs <;> push_neg at * <;> first | rfl | linarith

/-- The tax function never returns a negative liability. -/
theorem tax_nonneg (p : α) : 0 ≤ calculate_luxury_tax p := by
  rw [tax_closed]
  split_ifs <;> push_neg at * <;> linarith

end TaxThms

/-! ### Grid, clipping, and calibration bounds -/

/-- The consecutive grid spacing is the constant Euler step `H/(N−1) = 5/99`. -/
theorem tGrid_step (i : ℕ) : tGrid (i + 1) - tGrid i = 5 / 99 := by
  unfold tGrid
  push_cast
  ring

/-- Win rates are clipped into `[0.3, 0.8]` whatever the (real) input. -/
theorem win_rate_mem (salary : ℝ) :
    0.3 ≤ win_rate_function salary ∧ win_rate_function salary ≤ 0.8 := by
  constructor
  · exact le_min (le_max_right _ _) (by norm_num)
  · exact min_le_right _ _

/-- A coarse magnitude bound on the fitted revenue intercept
(its exact value is ≈ −1.72e9). -/
theorem R_FIXED_abs : |(R_FIXED : ℝ)| ≤ 10000000000 := by
  have h : |R_FIXED| ≤ (10000000000 : ℚ) := by
    rw [abs_le]
    constructor <;>
      norm_num [R_FIXED, detM, det3, dotQ, bB, yM, win_rates, revenues, brand_values]
  calc |(R_FIXED : ℝ)| = ((|R_FIXED| : ℚ) : ℝ) := (Rat.cast_abs _).symm
    _ ≤ ((10000000000 : ℚ) : ℝ) := by exact_mod_cast h
    _ = 10000000000 := by norm_num

/-- A coarse magnitude bound on the fitted win-rate revenue coefficient
(its exact value is ≈ 2.56e9). -/
theorem ALPHA_abs : |(ALPHA : ℝ)| ≤ 10000000000 := by
  have h : |ALPHA| ≤ (10000000000 : ℚ) := by
    rw [abs_le]
    constructor <;>
      norm_num [ALPHA, detM, det3, dotQ, bB, yM, win_rates, revenues, brand_values]
  calc |(ALPHA : ℝ)| = ((|ALPHA| : ℚ) : ℝ) := (Rat.cast_abs _).symm
    _ ≤ ((10000000000 : ℚ) : ℝ) := by exact_mod_cast h
    _ = 10000000000 := by norm_num

/-- A coarse magnitude bound on the fitted brand revenue coefficient
(its exact value is ≈ 7.85e8). -/
theorem BETA_abs : |(BETA : ℝ)| ≤ 10000000000 := by
  have h : |BETA| ≤ (10000000000 : ℚ) := by
    rw [abs_le]
    constructor <;>
      norm_num [BETA, detM, det3, dotQ, bB, yM, win_rates, revenues, brand_values]
  calc |(BETA : ℝ)| = ((|BETA| : ℚ) : ℝ) := (Rat.cast_abs _).symm
    _ ≤ ((10000000000 : ℚ) : ℝ) := by exact_mod_cast h
    _ = 10000000000 := by norm_num

/-- The mean operating cost is non-negative (its exact value is 235.87e6). -/
theorem C_OPS_nonneg : (0 : ℝ) ≤ (C_OPS : ℝ) := by
  have h : (0 : ℚ) ≤ C_OPS := by
    norm_num [C_OPS, revenues, salaries, luxury_taxes, ebitdas]
  exact_mod_cast h

/-! ### Loop-accumulator invariants -/

/-- The fold inside `objective_function`, after `n` iterations, carries
exactly (state after `n` Euler steps, partial discounted sum). -/
theorem obj_foldl (traj : Fin 5 → ℝ) (n : ℕ) :
    (List.range n).foldl (objStep traj) ((P0, B0), 0) =
      (objStates traj n,
        ∑ i ∈ Finset.range n,
          Real.exp (-RHO * tGrid (i + 1)) *
              (W1 * (objStates traj (i + 1)).1 + W2 * ((objStates traj (i + 1)).2 * 7)) *
            (tGrid (i + 1) - tGrid i)) := by
  induction n with
  | zero => simp [objStates]
  | succ n ih =>
      rw [List.range_succ, List.foldl_append, List.foldl_cons, List.foldl_nil, ih,
        Finset.sum_range_succ]
      simp only [objStep, objStates]

/-- The fold inside `constraint_min_profit`, after `n + 1` iterations,
carries exactly (state after `n + 1` Euler steps, running minimum of the
profit rates of steps `0..n`). -/
theorem con_foldl (traj : Fin 5 → ℝ) (n : ℕ) :
    (List.range (n + 1)).foldl (conStep traj) ((P0, B0), none) =
      (conStates traj (n + 1), some (bestRate traj n)) := by
  induction n with
  | zero =>
      simp only [List.range_succ, List.range_zero, List.nil_append, List.foldl_cons,
        List.foldl_nil, conStep, conStates, bestRate, profitRate]
  | succ n ih =>
      rw [List.range_succ, List.foldl_append, List.foldl_cons, List.foldl_nil, ih]
      simp only [conStep, conStates, bestRate, profitRate]

/-- `constraint_min_profit` returns the running minimum over all 99
steps, plus the 50-million tolerance. -/
theorem constraint_eq (traj : Fin 5 → ℝ) :
    constraint_min_profit traj = bestRate traj 98 + 50000000 := by
  unfold constraint_min_profit
  rw [show (99 : ℕ) = 98 + 1 from rfl, con_foldl]
  rfl

/-- The running minimum is a lower bound of every examined profit rate. -/
theorem bestRate_le (traj : Fin 5 → ℝ) (n i : ℕ) (h : i ≤ n) :
    bestRate traj n ≤ profitRate traj i := by
  induction n with
  | zero => rw [Nat.le_zero.mp h]; exact le_of_eq rfl
  | succ n ih =>
      rcases Nat.le_succ_iff.mp h with h' | h'
      · exact le_trans (min_le_left _ _) (ih h')
      · rw [h']; exact min_le_right _ _

/-- The running minimum is attained at one of the examined steps. -/
theorem bestRate_mem (traj : Fin 5 → ℝ) (n : ℕ) :
    ∃ i ≤ n, bestRate traj n = profitRate traj i := by
  induction n with
  | zero => exact ⟨0, le_refl 0, rfl⟩
  | succ n ih =>
      obtain ⟨i, hi, heq⟩ := ih
      rcases min_cases (bestRate traj n) (profitRate traj (n + 1)) with ⟨h, _⟩ | ⟨h, _⟩
      · exact ⟨i, le_trans hi (Nat.le_succ n), by rw [bestRate, h, heq]⟩
      · exact ⟨n + 1, le_refl _, by rw [bestRate, h]⟩

/-! ### A concretely infeasible trajectory

At a constant payroll of 1e12 dollars, the very first integration step
already loses far more than the tolerated 50 million per year: revenue
is bounded by the coarse coefficient bounds while the expense contains
the payroll itself plus a tax of ≈ 4.75e12. -/

theorem big_rate0 : profitRate (fun _ => (1000000000000 : ℝ)) 0 < -50000000 := by
  have hsal : interp5 (fun _ => (1000000000000 : ℝ)) (tGrid 0) = 1000000000000 := by
    norm_num [tGrid, interp5]
  have htax : calculate_luxury_tax (1000000000000 : ℝ) =
      65000000 + (19 / 4) * (1000000000000 - 207895000) := by
    rw [tax_closed]; norm_num
  have hw := win_rate_mem (1000000000000 : ℝ)
  have hA : (ALPHA : ℝ) * win_rate_function 1000000000000 ≤ 10000000000 := by
    have h1 : |win_rate_function (1000000000000 : ℝ)| ≤ 1 :=
      abs_le.mpr ⟨by linarith [hw.1], by linarith [hw.2]⟩
    calc (ALPHA : ℝ) * win_rate_function 1000000000000
        ≤ |(ALPHA : ℝ) * win_rate_function 1000000000000| := le_abs_self _
      _ = |(ALPHA : ℝ)| * |win_rate_function (1000000000000 : ℝ)| := abs_mul _ _
      _ ≤ 10000000000 * 1 := mul_le_mul ALPHA_abs h1 (abs_nonneg _) (by norm_num)
      _ = 10000000000 := mul_one _
  have hB : (BETA : ℝ) * (B0 / 1000000000) ≤ 12460000000 := by
    have hb : (B0 : ℝ) / 1000000000 = 1.246 := by norm_num [B0]
    rw [hb]
    calc (BETA : ℝ) * 1.246 ≤ |(BETA : ℝ)| * 1.246 :=
          mul_le_mul_of_nonneg_right (le_abs_self _) (by norm_num)
      _ ≤ 10000000000 * 1.246 := mul_le_mul_of_nonneg_right BETA_abs (by norm_num)
      _ ≤ 12460000000 := by norm_num
  have hRF : (R_FIXED : ℝ) ≤ 10000000000 := le_trans (le_abs_self _) R_FIXED_abs
  have hbonus : (if PLAYOFF_THRESHOLD ≤ win_rate_function (1000000000000 : ℝ)
      then PLAYOFF_BONUS else 0) ≤ 34700000 := by
    unfold PLAYOFF_BONUS
    split_ifs <;> norm_num
  have hco := C_OPS_nonneg
  unfold profitRate
  rw [hsal]
  simp only [conStates]
  unfold dynamics
  dsimp only
  unfold revenue_function expense_function
  rw [htax]
  linarith [hA, hB, hRF, hbonus, hco]

/-- The constant 1e12 trajectory is flagged infeasible by the constraint. -/
theorem big_infeasible : constraint_min_profit (fun _ => (1000000000000 : ℝ)) < 0 := by
  have h := bestRate_le (fun _ => (1000000000000 : ℝ)) 98 0 (Nat.zero_le _)
  rw [constraint_eq]
  linarith [big_rate0]

/-! ### The claims -/

/-- C1: the code's tax at `LUXURY_TAX_LINE + 12e6` (with the default
repeat-offender rates), evaluated exactly over `ℚ`: it returns 26.25
million, not the 33.25 million the claim's bracket walk demands, because
the `$10M–$15M` bracket's guard `low <= excess` is checked against the
excess already decremented by the first two bracket widths (2 million
remain, which is below the bracket's 10 million lower bound, so the
bracket is skipped). -/
theorem C1_tax_bracket_example_fails :
    calculate_luxury_tax ((187895000 : ℚ) + 12000000) = 26250000 := by
  rw [tax_closed]
  norm_num

/-- C2 (corrected): no penalty is applied anywhere — the function the
optimizer minimizes is `objective_function` itself, so it agrees with
the plain negated discounted objective on every trajectory; and
infeasible trajectories exist, so the claimed difference on the
infeasible set genuinely fails. -/
theorem C2_no_penalty :
    (∀ x : Fin 5 → ℝ, optimizer_objective x = objective_function x) ∧
      ∃ x : Fin 5 → ℝ, constraint_min_profit x < 0 :=
  ⟨fun _ => rfl, ⟨fun _ => 1000000000000, big_infeasible⟩⟩

/-- C2, counterexample to the claim as stated: the constant 1e12
trajectory fails the feasibility check, yet the objective the optimizer
minimizes at it is exactly the plain negated discounted objective — not
an inflated one. -/
theorem C2_counterexample :
    constraint_min_profit (fun _ => (1000000000000 : ℝ)) < 0 ∧
      optimizer_objective (fun _ => (1000000000000 : ℝ)) =
        objective_function (fun _ => (1000000000000 : ℝ)) :=
  ⟨big_infeasible, rfl⟩

/-- C3, counterexample to the claim as stated: at payroll −1e6 the
logarithmic win-rate path returns the value NaN (via
`np.log(-1) = nan` and NaN-propagating clip) — it does not fail with a
raised NumericDomain error. -/
theorem C3_no_error_on_negative_payroll :
    win_rate_np (-1000000) = NpVal.nan := by
  unfold win_rate_np np_log
  rw [if_pos (by norm_num : (-1000000 : ℝ) / 1000000 < 0)]
  rfl

/-- C3 (corrected): for every payroll < 0 the logarithmic win-rate
function does not raise — `np.log` yields NaN, which propagates through
the clip, so NaN is returned (at payroll = 0 the log is −∞ and a value
is likewise returned, not an error). -/
theorem C3_negative_payroll_returns_nan (salary : ℝ) (h : salary < 0) :
    win_rate_np salary = NpVal.nan := by
  unfold win_rate_np np_log
  rw [if_pos (by apply div_neg_of_neg_of_pos h; norm_num : salary / 1000000 < 0)]
  rfl

/-- Witness for C3's amended claim at payroll −2e6. -/
theorem C3_negative_payroll_returns_nan_witness :
    (-2000000 : ℝ) < 0 ∧ win_rate_np (-2000000) = NpVal.nan :=
  ⟨by norm_num, C3_negative_payroll_returns_nan (-2000000) (by norm_num)⟩

/-- C4: for every positive payroll the win rate is clipped into the
plausibility bounds `[0.3, 0.8]`. -/
theorem C4_win_rate_clipped (salary : ℝ) (hs : 0 < salary) :
    0.3 ≤ win_rate_function salary ∧ win_rate_function salary ≤ 0.8 :=
  win_rate_mem salary

/-- Witness for C4 at payroll 2e8. -/
theorem C4_win_rate_clipped_witness :
    0 < (200000000 : ℝ) ∧
      0.3 ≤ win_rate_function (200000000 : ℝ) ∧
        win_rate_function (200000000 : ℝ) ≤ 0.8 :=
  ⟨by norm_num, C4_win_rate_clipped 200000000 (by norm_num)⟩

/-- C5: the integrator (1) linearly interpolates the sparse 5-point
trajectory onto the uniform grid (agreeing with the decisions at the
knots `0, 5/4, 5/2, 15/4, 5`), and (2) starting from the fixed initial
state `(0, 1.246e9)` advances by forward Euler
`state ← state + dt·f(state, payroll_i)` with `dt = H/(N−1) = 5/99`,
using the left-endpoint interpolated payroll at `t_i = 5i/99`. -/
theorem C5_euler_integrator (traj : Fin 5 → ℝ) :
    (interp5 traj 0 = traj 0 ∧ interp5 traj (5 / 4) = traj 1 ∧
        interp5 traj (5 / 2) = traj 2 ∧ interp5 traj (15 / 4) = traj 3 ∧
        interp5 traj 5 = traj 4) ∧
      objStates traj 0 = (0, 1.246e9) ∧
      ∀ i : ℕ,
        objStates traj (i + 1) =
          ((objStates traj i).1 +
              (dynamics (objStates traj i) (5 * i / 99) (interp5 traj (5 * i / 99))).1 *
                (5 / 99),
            (objStates traj i).2 +
              (dynamics (objStates traj i) (5 * i / 99) (interp5 traj (5 * i / 99))).2 *
                (5 / 99)) := by
  refine ⟨⟨?_, ?_, ?_, ?_, ?_⟩, rfl, ?_⟩
  · norm_num [interp5]
  · norm_num [interp5]
  · norm_num [interp5]
  · norm_num [interp5]
  · norm_num [interp5]
  · intro i
    rw [objStates, tGrid_step]
    norm_num [tGrid]

/-- C6: `objective_function` returns the negation of the discounted
weighted sum `Σ exp(−ρ t_{i+1}) (w1 P_{i+1} + w2 (B_{i+1}·7)) dt` over
the 99 steps, with `ρ = 0.05`, `w1 = 0.6`, `w2 = 0.4`, `dt = 5/99`, and
post-step Euler states. -/
theorem C6_objective_discounted_sum (traj : Fin 5 → ℝ) :
    objective_function traj =
      -(∑ i ∈ Finset.range 99,
          Real.exp (-(0.05) * tGrid (i + 1)) *
              ((0.6 : ℝ) * (objStates traj (i + 1)).1 +
                (0.4 : ℝ) * ((objStates traj (i + 1)).2 * 7)) *
            (5 / 99)) := by
  unfold objective_function
  rw [obj_foldl]
  dsimp only
  refine neg_inj.mpr (Finset.sum_congr rfl fun i _ => ?_)
  rw [tGrid_step]
  norm_num [RHO, W1, W2]

/-- C7: `constraint_min_profit` returns exactly (minimum per-step profit
rate over the 99 steps) + 5e7: the returned value minus the tolerance is
the least element of the set of examined profit rates; consequently any
trajectory with a single-period loss rate worse than −5e7 gets a
strictly negative value. -/
theorem C7_constraint_is_min (traj : Fin 5 → ℝ) :
    IsLeast {x : ℝ | ∃ i, i < 99 ∧ profitRate traj i = x}
        (constraint_min_profit traj - 50000000) ∧
      ((∃ i, i < 99 ∧ profitRate traj i < -50000000) →
        constraint_min_profit traj < 0) := by
  have hc : constraint_min_profit traj - 50000000 = bestRate traj 98 := by
    rw [constraint_eq]; ring
  constructor
  · constructor
    · obtain ⟨i, hi, heq⟩ := bestRate_mem traj 98
      exact ⟨i, Nat.lt_succ_of_le hi, by rw [hc, heq]⟩
    · rintro x ⟨i, hi, rfl⟩
      rw [hc]
      exact bestRate_le traj 98 i (Nat.lt_succ_iff.mp hi)
  · rintro ⟨i, hi, hneg⟩
    have := bestRate_le traj 98 i (Nat.lt_succ_iff.mp hi)
    rw [constraint_eq]
    linarith

/-- Witness for C7: its infeasibility implication fires at the constant
1e12 trajectory, whose step-0 loss rate exceeds the tolerance. -/
theorem C7_constraint_is_min_witness :
    constraint_min_profit (fun _ : Fin 5 => (1000000000000 : ℝ)) < 0 :=
  (C7_constraint_is_min (fun _ => 1000000000000)).2 ⟨0, by norm_num, big_rate0⟩

set_option maxHeartbeats 1600000 in
/-- C8: monotonicity of the luxury tax — for all payrolls
`payroll2 > payroll1 ≥ 0`, `tax(payroll2) ≥ tax(payroll1)` with the
default repeat-offender rates.  This holds despite the bracket-skipping
slip: the implemented tax is a non-decreasing piecewise function. -/
theorem C8_tax_monotone (p1 p2 : ℝ) (h0 : 0 ≤ p1) (h12 : p1 < p2) :
    calculate_luxury_tax p1 ≤ calculate_luxury_tax p2 := by
  rw [tax_closed, tax_closed]
  split_ifs <;> push_neg at * <;> linarith

/-- Witness for C8 at the concrete pair (190 million, 200 million). -/
theorem C8_tax_monotone_witness :
    0 ≤ (190000000 : ℝ) ∧ (190000000 : ℝ) < 200000000 ∧
      calculate_luxury_tax (190000000 : ℝ) ≤ calculate_luxury_tax (200000000 : ℝ) :=
  ⟨by norm_num, by norm_num, C8_tax_monotone 190000000 200000000 (by norm_num) (by norm_num)⟩

/-- C9: the Euler state sequences computed inside `objective_function`,
inside `constraint_min_profit`, and by the standalone diagnostic
simulation loop are pointwise identical for every trajectory. -/
theorem C9_loops_agree (traj : Fin 5 → ℝ) (i : ℕ) :
    conStates traj i = objStates traj i ∧ simStates traj i = objStates traj i := by
  induction i with
  | zero => exact ⟨rfl, rfl⟩
  | succ i ih =>
      rw [conStates, simStates, objStates, ih.1, ih.2]
      exact ⟨rfl, rfl⟩

/-- C10: along any trajectory of strictly positive payroll decisions the
brand value stays strictly positive at every Euler step: each step
multiplies the brand by `1 − δ·dt ∈ (0,1)` and adds the non-negative
drive `dt·(η·S + ζ)` with `S ≥ 0.3` from the clipped win rate. -/
theorem C10_brand_positive (traj : Fin 5 → ℝ) (hpos : ∀ j : Fin 5, 0 < traj j) :
    ∀ i : ℕ, 0 < (objStates traj i).2 := by
  intro i
  induction i with
  | zero => norm_num [objStates, B0]
  | succ i ih =>
      rw [objStates, tGrid_step]
      dsimp only
      unfold dynamics
      dsimp only
      have hw := win_rate_mem (interp5 traj (tGrid i))
      unfold ETA ZETA DELTA STAR_EFFECT at *
      norm_num
      nlinarith [hw.1, hw.2, ih]

/-- Witness for C10 at the constant 2e8 trajectory, step 99. -/
theorem C10_brand_positive_witness :
    (∀ j : Fin 5, 0 < (fun _ : Fin 5 => (200000000 : ℝ)) j) ∧
      0 < (objStates (fun _ : Fin 5 => (200000000 : ℝ)) 99).2 :=
  ⟨fun _ => by norm_num,
    C10_brand_positive (fun _ => 200000000) (fun _ => by norm_num) 99⟩

end Q1
